import Mathlib

/-!
Shallow embedding of the voice conversation session of
`src/frontend/src/pages/VoiceChatPage.jsx` (the session state machine, its
capture / exchange / playback handlers, and the UI-level event dispatch
including the `disabled` guards on the mic button, the text input and the
send button).  React `useState` fields become fields of `ChatState`; each
async handler is split at its `await` points into a synchronous prefix and
a settlement function parameterised by the outcome of the awaited
operation, and a `step` function dispatches user-visible events exactly as
the JSX wires them.  JavaScript values that the code tests with `!== null`
or truthiness are modelled three-valued (`undef` / `null` / `val`) so that
the embedding keeps the distinction between a missing key and an explicit
null.
-/

namespace VoiceChat

/-- A JavaScript string-or-missing value: `undef` models a missing key
(undefined), `null` an explicit null, `val s` a string value. -/
inductive JsStr where
  | undef : JsStr
  | null : JsStr
  | val : String → JsStr
deriving DecidableEq

/-- JavaScript truthiness for `JsStr`: only a non-empty string is truthy. -/
def JsStr.truthy : JsStr → Bool
  | .val s => s ≠ ""
  | _ => false

/-- A JavaScript number-or-missing value (lead scores are numbers). -/
inductive JsNum where
  | undef : JsNum
  | null : JsNum
  | val : ℚ → JsNum
deriving DecidableEq

/-- Message role as used in the transcript entries. -/
inductive Role where
  | user : Role
  | assistant : Role
deriving DecidableEq

/-- One transcript entry, as built at lines 131 and 165 of
VoiceChatPage.jsx.  The wall-clock `timestamp: new Date()` field is not
modelled; `language` is `undef` on user entries because the object literal
for a user message has no `language` key. -/
structure Turn where
  role : Role
  content : String
  language : JsStr
deriving DecidableEq

/-- The `data.pipeline_info` payload of a response, as read by the render
code (detected language, engine identifiers, retrieval hit count,
campaign name). -/
structure PipelineData where
  detected_language : String
  stt_engine : String
  llm_model : String
  tts_engine : String
  tts_status : String
  faq_matches : ℕ
  campaign_name : String
deriving DecidableEq

/-- The `pipelineInfo` state value: the response payload spread together
with the measured `latency_ms` (line 158).  The `timestamp:
new Date().toLocaleTimeString()` field is wall clock and not modelled. -/
structure Snapshot where
  info : PipelineData
  latency_ms : ℕ
deriving DecidableEq

/-- A campaign as served by the campaign directory (at least id and name). -/
structure Campaign where
  id : ℕ
  name : String
deriving DecidableEq

/-- The JSON body of a successful exchange response, with the fields
`handleResponse` reads. -/
structure TurnResult where
  session_id : JsStr
  text_response : String
  detected_language : JsStr
  audio_base64 : JsStr
  lead_score : JsNum
  lead_status : JsStr
  pipeline_info : Option PipelineData
deriving DecidableEq

/-- Which kind of exchange request is in flight (text or audio). -/
inductive FlightKind where
  | text : FlightKind
  | audio : FlightKind
deriving DecidableEq

/-- The component state: every `useState` of VoiceChatPage plus the
resource facts the claims are about — whether the microphone stream is
held (`micHeld`, i.e. its tracks were acquired and not yet stopped),
whether `mediaRecorderRef.current` holds a live recorder (`recorderSet`),
whether a `recorder.stop()` has been issued whose `onstop` callback has
not yet run (`pendingStop`), and which fetch promise is pending
(`inFlight`).  The campaign list and its loading flag are taken as
already loaded. -/
structure ChatState where
  isRecording : Bool
  isProcessing : Bool
  isPlaying : Bool
  sessionId : JsStr
  messages : List Turn
  leadScore : JsNum
  leadStatus : JsStr
  error : Option String
  textInput : String
  audioEnabled : Bool
  selectedCampaign : Option Campaign
  pipelineInfo : Option Snapshot
  micHeld : Bool
  recorderSet : Bool
  pendingStop : Bool
  inFlight : Option FlightKind
deriving DecidableEq

/-- The initial state of the component (all `useState` initial values). -/
def initState : ChatState :=
  { isRecording := false
    isProcessing := false
    isPlaying := false
    sessionId := .null
    messages := []
    leadScore := .null
    leadStatus := .null
    error := none
    textInput := ""
    audioEnabled := true
    selectedCampaign := none
    pipelineInfo := none
    micHeld := false
    recorderSet := false
    pendingStop := false
    inFlight := none }

/-- Error string of line 77 / line 128. -/
def campaignError : String := "Please select a campaign first"

/-- Error string of line 96. -/
def micError : String := "Microphone access denied. Please enable microphone permissions."

/-- Fallback error of line 148. -/
def textFailDefault : String := "Failed to process message. Please try again."

/-- Fallback error of line 122. -/
def audioFailDefault : String := "Failed to process audio. Please try again."

/-- Helper: the assistant transcript entry built at line 165 from a
response. -/
def assistantTurn (r : TurnResult) : Turn :=
  { role := .assistant, content := r.text_response, language := r.detected_language }

/-- Helper: the user transcript entry built at line 131. -/
def userTurn (t : String) : Turn :=
  { role := .user, content := t, language := .undef }

/-- Outcome of the awaited part of `startRecording`:
`permissionDenied` — `getUserMedia` rejects (no stream acquired);
`recorderFail` — `getUserMedia` resolves but the `MediaRecorder`
constructor throws (stream tracks already live);
`ok` — recorder constructed and started. -/
inductive MicOutcome where
  | permissionDenied : MicOutcome
  | recorderFail : MicOutcome
  | ok : MicOutcome
deriving DecidableEq

/-- `startRecording` (lines 76-98), with the outcome of the awaited
microphone acquisition made explicit.  On `recorderFail` the catch block
at lines 94-97 only sets the error message: the stream tracks acquired at
line 80 are never stopped on that path, so `micHeld` stays true. -/
def startRecording (s : ChatState) (o : MicOutcome) : ChatState :=
  if s.selectedCampaign.isNone then { s with error := some campaignError }
  else
    match o with
    | .permissionDenied => { s with error := some micError }
    | .recorderFail => { s with micHeld := true, error := some micError }
    | .ok => { s with error := none, micHeld := true, recorderSet := true,
                      isRecording := true }

/-- `stopRecording` (lines 100-102): issues `recorder.stop()` (whose
`onstop` callback fires later) and clears the recording flag. -/
def stopRecording (s : ChatState) : ChatState :=
  if s.recorderSet ∧ s.isRecording then
    { s with isRecording := false, pendingStop := true }
  else s

/-- The `onstop` callback (lines 87-91) followed by the synchronous prefix
of `sendAudioToBackend` (lines 104-112 up to the `await fetch`): the
stream tracks are stopped (microphone released), the processing flag is
raised, any error is cleared, and the audio POST goes in flight. -/
def micStopped (s : ChatState) : ChatState :=
  if s.pendingStop then
    { s with pendingStop := false, micHeld := false, isProcessing := true,
             error := none, inFlight := some .audio }
  else s

/-- JavaScript String.prototype.trim: strip leading and trailing
whitespace.  Defined by structural recursion over the character list so
that concrete states evaluate inside proofs (the library String.trim is
not reducible by the kernel). -/
def jsTrim (s : String) : String :=
  String.mk (((s.data.dropWhile Char.isWhitespace).reverse.dropWhile Char.isWhitespace).reverse)

/-- Synchronous prefix of `sendTextMessage` (lines 126-138 up to the
`await fetch`): whitespace-only input returns at once, a missing campaign
sets an error and returns, otherwise the input is cleared, the processing
flag raised, the user turn appended, and the text POST goes in flight. -/
def sendTextMessage (s : ChatState) : ChatState :=
  if jsTrim s.textInput = "" then s
  else if s.selectedCampaign.isNone then { s with error := some campaignError }
  else
    { s with textInput := "", isProcessing := true, error := none,
             messages := s.messages ++ [userTurn (jsTrim s.textInput)],
             inFlight := some .text }

/-- Line 153: adopt the session id when truthy. -/
def applySessionId (s : ChatState) (data : TurnResult) : ChatState :=
  if data.session_id.truthy then { s with sessionId := data.session_id } else s

/-- Line 154: the guard excludes only an explicit null, so an undefined
(missing) score passes it and overwrites the stored score. -/
def applyLeadScore (s : ChatState) (data : TurnResult) : ChatState :=
  if data.lead_score = JsNum.null then s else { s with leadScore := data.lead_score }

/-- Line 155: adopt the lead status when truthy. -/
def applyLeadStatus (s : ChatState) (data : TurnResult) : ChatState :=
  if data.lead_status.truthy then { s with leadStatus := data.lead_status } else s

/-- Lines 157-160: replace the pipeline snapshot when the response carries
one, attaching the measured latency. -/
def applyPipeline (s : ChatState) (data : TurnResult) (latency : ℕ) : ChatState :=
  match data.pipeline_info with
  | some info => { s with pipelineInfo := some { info := info, latency_ms := latency } }
  | none => s

/-- Lines 162-166: the transcript append.  The source ternary
`skipUserMessage ? [] : []` has the empty array in both branches, and is
kept verbatim, followed by the assistant entry. -/
def appendTurns (s : ChatState) (data : TurnResult) (skipUserMessage : Bool) : ChatState :=
  { s with messages :=
      s.messages ++ (if skipUserMessage then [] else []) ++ [assistantTurn data] }

/-- Lines 168-173: start playback when enabled and audio bytes are
present. -/
def applyPlayback (s : ChatState) (data : TurnResult) : ChatState :=
  if s.audioEnabled && data.audio_base64.truthy then { s with isPlaying := true } else s

/-- `handleResponse` (lines 152-174), applied to whatever the component
state is when the response arrives: the sequence of conditional setState
calls of the source, in source order. -/
def handleResponse (s : ChatState) (data : TurnResult) (skipUserMessage : Bool)
    (latency : ℕ) : ChatState :=
  applyPlayback
    (appendTurns
      (applyPipeline
        (applyLeadStatus
          (applyLeadScore
            (applySessionId s data) data) data) data latency) data skipUserMessage) data

/-- Outcome of an awaited exchange fetch: success with a parsed body, or
failure (network error, non-ok status, or unparsable body) carrying the
thrown message when it is truthy. -/
inductive ExchangeOutcome where
  | success : TurnResult → ExchangeOutcome
  | failure : Option String → ExchangeOutcome
deriving DecidableEq

/-- Settlement of an in-flight exchange (the continuation after the
`await fetch` of `sendTextMessage` or `sendAudioToBackend`): on success
`handleResponse` runs (with `skipUserMessage` true exactly for text, per
lines 119 and 145); on failure only the error message is set; the
`finally` clause lowers the processing flag on both paths. -/
def exchangeSettled (s : ChatState) (k : FlightKind) (o : ExchangeOutcome)
    (latency : ℕ) : ChatState :=
  match o with
  | .success r =>
      { handleResponse s r (k = FlightKind.text) latency with
          isProcessing := false, inFlight := none }
  | .failure m =>
      let dflt := match k with
        | .text => textFailDefault
        | .audio => audioFailDefault
      { s with error := some (m.getD dflt), isProcessing := false, inFlight := none }

/-- `startNewSession` (lines 176-179): clears session id, transcript,
lead score, lead status, error and pipeline snapshot.  It does not touch
the in-flight promise, the processing flag, or the text input. -/
def startNewSession (s : ChatState) : ChatState :=
  { s with sessionId := .null, messages := [], leadScore := .null,
           leadStatus := .null, error := none, pipelineInfo := none }

/-- The campaign select onChange handler (lines 231-235): bind the chosen
campaign (none when the placeholder is chosen) and start a new session. -/
def chooseCampaign (s : ChatState) (oc : Option Campaign) : ChatState :=
  startNewSession { s with selectedCampaign := oc }

/-- User-visible events of the page, as wired in the JSX: typing in the
text box, pressing Enter in it, clicking the send button, clicking the
mic button, the recorder onstop callback firing, an in-flight exchange
settling, clicking New, and picking a campaign. -/
inductive Event where
  | typeText : String → Event
  | pressEnter : Event
  | clickSend : Event
  | clickMic : MicOutcome → Event
  | recorderStopped : Event
  | exchangeReturns : ExchangeOutcome → ℕ → Event
  | clickNew : Event
  | selectCampaignOption : Option Campaign → Event

/-- Event dispatch with the `disabled` guards of the JSX: the text input
and Enter key are dead while processing or without a campaign (line 556),
the send button additionally while the input is blank (line 559), and the
mic button while processing or without a campaign (line 567); an enabled
mic click stops the recorder when recording, otherwise starts one
(line 566).  The onstop callback and the settlement of an in-flight fetch
run unconditionally when pending. -/
def step (s : ChatState) : Event → ChatState
  | .typeText t =>
      if s.isProcessing ∨ s.selectedCampaign.isNone then s else { s with textInput := t }
  | .pressEnter =>
      if s.isProcessing ∨ s.selectedCampaign.isNone then s else sendTextMessage s
  | .clickSend =>
      if s.isProcessing ∨ jsTrim s.textInput = "" ∨ s.selectedCampaign.isNone then s
      else sendTextMessage s
  | .clickMic o =>
      if s.isProcessing ∨ s.selectedCampaign.isNone then s
      else if s.isRecording then stopRecording s else startRecording s o
  | .recorderStopped => micStopped s
  | .exchangeReturns o lat =>
      match s.inFlight with
      | none => s
      | some k => exchangeSettled s k o lat
  | .clickNew => startNewSession s
  | .selectCampaignOption oc => chooseCampaign s oc

/-- Run a list of events from a state. -/
def runTrace (s : ChatState) (es : List Event) : ChatState :=
  es.foldl step s

/-- A sample campaign used by concrete scenarios. -/
def camp1 : Campaign := { id := 1, name := "Campaign A" }

/-- A sample successful response carrying a session token, a hot lead at
score 0.82, and an assistant reply. -/
def resHot : TurnResult :=
  { session_id := .val "s1"
    text_response := "Our plans start at ten dollars"
    detected_language := .val "english"
    audio_base64 := .undef
    lead_score := .val (82/100)
    lead_status := .val "hot"
    pipeline_info := none }

section Projections

variable (s : ChatState) (r : TurnResult) (skip : Bool) (lat : ℕ)

theorem applySessionId_sessionId :
    (applySessionId s r).sessionId
      = if r.session_id.truthy then r.session_id else s.sessionId := by
  unfold applySessionId; split <;> rfl

theorem applySessionId_messages : (applySessionId s r).messages = s.messages := by
  unfold applySessionId; split <;> rfl

theorem applySessionId_leadScore : (applySessionId s r).leadScore = s.leadScore := by
  unfold applySessionId; split <;> rfl

theorem applySessionId_leadStatus : (applySessionId s r).leadStatus = s.leadStatus := by
  unfold applySessionId; split <;> rfl

theorem applySessionId_pipelineInfo : (applySessionId s r).pipelineInfo = s.pipelineInfo := by
  unfold applySessionId; split <;> rfl

theorem applyLeadScore_sessionId : (applyLeadScore s r).sessionId = s.sessionId := by
  unfold applyLeadScore; split <;> rfl

theorem applyLeadScore_messages : (applyLeadScore s r).messages = s.messages := by
  unfold applyLeadScore; split <;> rfl

theorem applyLeadScore_leadScore :
    (applyLeadScore s r).leadScore
      = if r.lead_score = JsNum.null then s.leadScore else r.lead_score := by
  unfold applyLeadScore; split <;> rfl

theorem applyLeadScore_leadStatus : (applyLeadScore s r).leadStatus = s.leadStatus := by
  unfold applyLeadScore; split <;> rfl

theorem applyLeadScore_pipelineInfo : (applyLeadScore s r).pipelineInfo = s.pipelineInfo := by
  unfold applyLeadScore; split <;> rfl

theorem applyLeadStatus_sessionId : (applyLeadStatus s r).sessionId = s.sessionId := by
  unfold applyLeadStatus; split <;> rfl

theorem applyLeadStatus_messages : (applyLeadStatus s r).messages = s.messages := by
  unfold applyLeadStatus; split <;> rfl

theorem applyLeadStatus_leadScore : (applyLeadStatus s r).leadScore = s.leadScore := by
  unfold applyLeadStatus; split <;> rfl

theorem applyLeadStatus_leadStatus :
    (applyLeadStatus s r).leadStatus
      = if r.lead_status.truthy then r.lead_status else s.leadStatus := by
  unfold applyLeadStatus; split <;> rfl

theorem applyLeadStatus_pipelineInfo : (applyLeadStatus s r).pipelineInfo = s.pipelineInfo := by
  unfold applyLeadStatus; split <;> rfl

theorem applyPipeline_sessionId : (applyPipeline s r lat).sessionId = s.sessionId := by
  unfold applyPipeline; split <;> rfl

theorem applyPipeline_messages : (applyPipeline s r lat).messages = s.messages := by
  unfold applyPipeline; split <;> rfl

theorem applyPipeline_leadScore : (applyPipeline s r lat).leadScore = s.leadScore := by
  unfold applyPipeline; split <;> rfl

theorem applyPipeline_leadStatus : (applyPipeline s r lat).leadStatus = s.leadStatus := by
  unfold applyPipeline; split <;> rfl

theorem applyPipeline_pipelineInfo :
    (applyPipeline s r lat).pipelineInfo
      = match r.pipeline_info with
        | some info => some { info := info, latency_ms := lat }
        | none => s.pipelineInfo := by
  unfold applyPipeline; split <;> rfl

theorem appendTurns_sessionId : (appendTurns s r skip).sessionId = s.sessionId := rfl

theorem appendTurns_messages :
    (appendTurns s r skip).messages
      = s.messages ++ (if skip then [] else []) ++ [assistantTurn r] := rfl

theorem appendTurns_leadScore : (appendTurns s r skip).leadScore = s.leadScore := rfl

theorem appendTurns_leadStatus : (appendTurns s r skip).leadStatus = s.leadStatus := rfl

theorem appendTurns_pipelineInfo : (appendTurns s r skip).pipelineInfo = s.pipelineInfo := rfl

theorem applyPlayback_sessionId : (applyPlayback s r).sessionId = s.sessionId := by
  unfold applyPlayback; split <;> rfl

theorem applyPlayback_messages : (applyPlayback s r).messages = s.messages := by
  unfold applyPlayback; split <;> rfl

theorem applyPlayback_leadScore : (applyPlayback s r).leadScore = s.leadScore := by
  unfold applyPlayback; split <;> rfl

theorem applyPlayback_leadStatus : (applyPlayback s r).leadStatus = s.leadStatus := by
  unfold applyPlayback; split <;> rfl

theorem applyPlayback_pipelineInfo : (applyPlayback s r).pipelineInfo = s.pipelineInfo := by
  unfold applyPlayback; split <;> rfl

/-- Projection: `handleResponse` appends the assistant entry (and nothing
else, since both branches of the `skipUserMessage` ternary are empty). -/
theorem handleResponse_messages :
    (handleResponse s r skip lat).messages
      = s.messages ++ (if skip then [] else []) ++ [assistantTurn r] := by
  simp only [handleResponse, applyPlayback_messages, appendTurns_messages,
    applyPipeline_messages, applyLeadStatus_messages, applyLeadScore_messages,
    applySessionId_messages]

/-- Projection: the session id after `handleResponse`. -/
theorem handleResponse_sessionId :
    (handleResponse s r skip lat).sessionId
      = if r.session_id.truthy then r.session_id else s.sessionId := by
  simp only [handleResponse, applyPlayback_sessionId, appendTurns_sessionId,
    applyPipeline_sessionId, applyLeadStatus_sessionId, applyLeadScore_sessionId,
    applySessionId_sessionId]

/-- Projection: the lead score after `handleResponse` (the guard excludes
only an explicit null). -/
theorem handleResponse_leadScore :
    (handleResponse s r skip lat).leadScore
      = if r.lead_score = JsNum.null then s.leadScore else r.lead_score := by
  simp only [handleResponse, applyPlayback_leadScore, appendTurns_leadScore,
    applyPipeline_leadScore, applyLeadStatus_leadScore, applyLeadScore_leadScore,
    applySessionId_leadScore]

/-- Projection: the lead status after `handleResponse` (truthiness guard). -/
theorem handleResponse_leadStatus :
    (handleResponse s r skip lat).leadStatus
      = if r.lead_status.truthy then r.lead_status else s.leadStatus := by
  simp only [handleResponse, applyPlayback_leadStatus, appendTurns_leadStatus,
    applyPipeline_leadStatus, applyLeadStatus_leadStatus, applyLeadScore_leadStatus,
    applySessionId_leadStatus]

/-- Projection: the pipeline snapshot after `handleResponse`. -/
theorem handleResponse_pipelineInfo :
    (handleResponse s r skip lat).pipelineInfo
      = match r.pipeline_info with
        | some info => some { info := info, latency_ms := lat }
        | none => s.pipelineInfo := by
  simp only [handleResponse, applyPlayback_pipelineInfo, appendTurns_pipelineInfo,
    applyLeadStatus_pipelineInfo, applyLeadScore_pipelineInfo,
    applySessionId_pipelineInfo, applyPipeline_pipelineInfo]

end Projections

/-- Running `sendTextMessage` with non-blank trimmed input and a bound
campaign: the input is cleared, the processing flag raised, the error
cleared, the trimmed user turn appended, and a text exchange goes in
flight. -/
theorem sendTextMessage_run (s : ChatState) (c : Campaign)
    (ht : jsTrim s.textInput ≠ "") (hc : s.selectedCampaign = some c) :
    sendTextMessage s
      = { s with textInput := "", isProcessing := true, error := none,
                 messages := s.messages ++ [userTurn (jsTrim s.textInput)],
                 inFlight := some FlightKind.text } := by
  unfold sendTextMessage
  rw [if_neg ht, hc]
  rfl

/-- A successful settlement appends exactly the assistant entry (both
branches of the skipUserMessage ternary are empty). -/
theorem exchangeSettled_success_messages (s : ChatState) (k : FlightKind)
    (r : TurnResult) (lat : ℕ) :
    (exchangeSettled s k (ExchangeOutcome.success r) lat).messages
      = s.messages ++ [assistantTurn r] := by
  show (handleResponse s r (decide (k = FlightKind.text)) lat).messages = _
  rw [handleResponse_messages]
  simp

/-- Session id after a successful settlement. -/
theorem exchangeSettled_success_sessionId (s : ChatState) (k : FlightKind)
    (r : TurnResult) (lat : ℕ) :
    (exchangeSettled s k (ExchangeOutcome.success r) lat).sessionId
      = if r.session_id.truthy then r.session_id else s.sessionId := by
  show (handleResponse s r (decide (k = FlightKind.text)) lat).sessionId = _
  exact handleResponse_sessionId ..

/-- Lead score after a successful settlement. -/
theorem exchangeSettled_success_leadScore (s : ChatState) (k : FlightKind)
    (r : TurnResult) (lat : ℕ) :
    (exchangeSettled s k (ExchangeOutcome.success r) lat).leadScore
      = if r.lead_score = JsNum.null then s.leadScore else r.lead_score := by
  show (handleResponse s r (decide (k = FlightKind.text)) lat).leadScore = _
  exact handleResponse_leadScore ..

/-- A failed text settlement only sets the error and lowers the flags. -/
theorem exchangeSettled_failure_text (s : ChatState) (m : Option String) (lat : ℕ) :
    exchangeSettled s FlightKind.text (ExchangeOutcome.failure m) lat
      = { s with error := some (m.getD textFailDefault),
                 isProcessing := false, inFlight := none } := rfl

/-- A failed audio settlement only sets the error and lowers the flags. -/
theorem exchangeSettled_failure_audio (s : ChatState) (m : Option String) (lat : ℕ) :
    exchangeSettled s FlightKind.audio (ExchangeOutcome.failure m) lat
      = { s with error := some (m.getD audioFailDefault),
                 isProcessing := false, inFlight := none } := rfl

/-- Dispatch of a settlement event when an exchange is in flight. -/
theorem step_exchangeReturns_of_inFlight (s : ChatState) (o : ExchangeOutcome)
    (lat : ℕ) (k : FlightKind) (h : s.inFlight = some k) :
    step s (Event.exchangeReturns o lat) = exchangeSettled s k o lat := by
  simp only [step]
  rw [h]

/-- C1 counterexample trace: bind a campaign, type and send a text message
(so a text exchange is in flight), reset the session, and then let the
stale exchange resolve successfully. -/
def c1trace : List Event :=
  [Event.selectCampaignOption (some camp1), Event.typeText "hi", Event.pressEnter,
   Event.clickNew, Event.exchangeReturns (ExchangeOutcome.success resHot) 100]

/-- C1, as stated, is false: after a reset with an exchange in flight, the
stale result, resolving successfully, does mutate the new session — the
final state of the trace has a non-null session id, a non-empty
transcript, and a non-null lead score, none of which the reset left
behind. -/
theorem c1_counterexample :
    (runTrace initState c1trace).sessionId ≠ JsStr.null
  ∧ (runTrace initState c1trace).messages ≠ []
  ∧ (runTrace initState c1trace).leadScore ≠ JsNum.null := by decide

/-- C1 (amended): resetting the session clears sessionId, turns, lead
score, lead status and the pipeline snapshot synchronously, but there is
no generation check: an exchange in flight at reset time, when it later
resolves successfully, mutates the reset session — it adopts the result
session id, appends the assistant Turn to the cleared transcript, and
overwrites the lead score when the result carries one. -/
theorem c1_reset_then_stale_mutates (s : ChatState) (r : TurnResult) (lat : ℕ)
    (hin : s.inFlight = some FlightKind.text)
    (hsid : r.session_id.truthy = true) :
    (startNewSession s).sessionId = JsStr.null
  ∧ (startNewSession s).messages = []
  ∧ (startNewSession s).leadScore = JsNum.null
  ∧ (startNewSession s).leadStatus = JsStr.null
  ∧ (startNewSession s).pipelineInfo = none
  ∧ (step (startNewSession s) (Event.exchangeReturns (ExchangeOutcome.success r) lat)).sessionId
      = r.session_id
  ∧ (step (startNewSession s) (Event.exchangeReturns (ExchangeOutcome.success r) lat)).messages
      = [assistantTurn r]
  ∧ (r.lead_score ≠ JsNum.null →
      (step (startNewSession s) (Event.exchangeReturns (ExchangeOutcome.success r) lat)).leadScore
        = r.lead_score) := by
  have h1 : (startNewSession s).inFlight = some FlightKind.text := hin
  rw [step_exchangeReturns_of_inFlight _ _ _ _ h1]
  refine ⟨rfl, rfl, rfl, rfl, rfl, ?_, ?_, ?_⟩
  · rw [exchangeSettled_success_sessionId]
    simp [hsid]
  · rw [exchangeSettled_success_messages]
    rfl
  · intro hs
    rw [exchangeSettled_success_leadScore, if_neg hs]

/-- C1 witness: the amended theorem applied to the initial state with a
text exchange in flight and the sample hot-lead result. -/
theorem c1_witness :
    (step (startNewSession { initState with inFlight := some FlightKind.text })
        (Event.exchangeReturns (ExchangeOutcome.success resHot) 100)).sessionId
      = JsStr.val "s1"
  ∧ (step (startNewSession { initState with inFlight := some FlightKind.text })
        (Event.exchangeReturns (ExchangeOutcome.success resHot) 100)).messages
      = [assistantTurn resHot] :=
  ⟨(c1_reset_then_stale_mutates _ resHot 100 rfl (by decide)).2.2.2.2.2.1,
   (c1_reset_then_stale_mutates _ resHot 100 rfl (by decide)).2.2.2.2.2.2.1⟩

/-- C2 counterexample: a failed text exchange does not leave the turns
unchanged — the user Turn appended on entering Exchanging survives the
failure. -/
theorem c2_counterexample :
    (exchangeSettled
        (sendTextMessage { initState with selectedCampaign := some camp1, textInput := "hi" })
        FlightKind.text (ExchangeOutcome.failure none) 50).messages
      ≠ ({ initState with selectedCampaign := some camp1, textInput := "hi" } : ChatState).messages := by
  decide

/-- C2 (amended): a failed exchange leaves sessionId, leadScore,
leadStatus and the pipeline snapshot unchanged, surfaces only an error
message, and lowers the processing flag; for an audio attempt the turns
are fully unchanged, while for a text attempt the user Turn appended on
entering Exchanging remains, and nothing else is appended for the failed
attempt. -/
theorem c2_failed_exchange_preserves_session (s sa : ChatState) (c : Campaign)
    (m : Option String) (lat : ℕ)
    (ht : jsTrim s.textInput ≠ "") (hc : s.selectedCampaign = some c) :
    (exchangeSettled (sendTextMessage s) FlightKind.text (ExchangeOutcome.failure m) lat).sessionId
      = s.sessionId
  ∧ (exchangeSettled (sendTextMessage s) FlightKind.text (ExchangeOutcome.failure m) lat).leadScore
      = s.leadScore
  ∧ (exchangeSettled (sendTextMessage s) FlightKind.text (ExchangeOutcome.failure m) lat).leadStatus
      = s.leadStatus
  ∧ (exchangeSettled (sendTextMessage s) FlightKind.text (ExchangeOutcome.failure m) lat).pipelineInfo
      = s.pipelineInfo
  ∧ (exchangeSettled (sendTextMessage s) FlightKind.text (ExchangeOutcome.failure m) lat).messages
      = s.messages ++ [userTurn (jsTrim s.textInput)]
  ∧ (exchangeSettled (sendTextMessage s) FlightKind.text (ExchangeOutcome.failure m) lat).error
      = some (m.getD textFailDefault)
  ∧ (exchangeSettled (sendTextMessage s) FlightKind.text (ExchangeOutcome.failure m) lat).isProcessing
      = false
  ∧ (exchangeSettled sa FlightKind.audio (ExchangeOutcome.failure m) lat).sessionId = sa.sessionId
  ∧ (exchangeSettled sa FlightKind.audio (ExchangeOutcome.failure m) lat).messages = sa.messages
  ∧ (exchangeSettled sa FlightKind.audio (ExchangeOutcome.failure m) lat).leadScore = sa.leadScore
  ∧ (exchangeSettled sa FlightKind.audio (ExchangeOutcome.failure m) lat).leadStatus = sa.leadStatus
  ∧ (exchangeSettled sa FlightKind.audio (ExchangeOutcome.failure m) lat).pipelineInfo = sa.pipelineInfo
  ∧ (exchangeSettled sa FlightKind.audio (ExchangeOutcome.failure m) lat).error
      = some (m.getD audioFailDefault)
  ∧ (exchangeSettled sa FlightKind.audio (ExchangeOutcome.failure m) lat).isProcessing = false := by
  rw [exchangeSettled_failure_text, exchangeSettled_failure_audio, sendTextMessage_run s c ht hc]
  exact ⟨rfl, rfl, rfl, rfl, rfl, rfl, rfl, rfl, rfl, rfl, rfl, rfl, rfl, rfl⟩

/-- A concrete session used by the C2 witness: bound campaign, pending
input "hi", established session token. -/
def c2state : ChatState :=
  { initState with selectedCampaign := some camp1, textInput := "hi", sessionId := JsStr.val "s0" }

/-- C2 witness: the amended theorem applied to a concrete session with a
bound campaign and input "hi", failing with no extractable message. -/
theorem c2_witness :
    (exchangeSettled (sendTextMessage c2state) FlightKind.text
        (ExchangeOutcome.failure none) 0).sessionId = JsStr.val "s0" :=
  (c2_failed_exchange_preserves_session _ initState camp1 none 0 (by decide) rfl).1

/-- C3 counterexample trace: bind a campaign, start recording, then type
and send a text message while still recording — the text input is not
disabled during recording, so the send raises the processing flag while
the recording flag is still up. -/
def c3trace : List Event :=
  [Event.selectCampaignOption (some camp1), Event.clickMic MicOutcome.ok,
   Event.typeText "hi", Event.pressEnter]

/-- C3, as stated, is false: Recording and Exchanging are simultaneously
true at the end of the trace. -/
theorem c3_counterexample :
    (runTrace initState c3trace).isRecording = true
  ∧ (runTrace initState c3trace).isProcessing = true := by decide

/-- C3 (amended): an attempt to start a new recording while Exchanging is
true is rejected without side effects — the mic button is disabled while
processing, so the click changes nothing (no microphone acquisition, no
new capture unit, no state change).  The general mutual exclusion between
Recording and Exchanging does not hold, however: sending a text message
while recording makes both true at once (see the counterexample). -/
theorem c3_mic_click_rejected_while_exchanging (s : ChatState) (o : MicOutcome)
    (h : s.isProcessing = true) : step s (Event.clickMic o) = s := by
  simp [step, h]

/-- C3 witness: the amended theorem applied to a processing state. -/
theorem c3_witness :
    step { initState with isProcessing := true } (Event.clickMic MicOutcome.ok)
      = { initState with isProcessing := true } :=
  c3_mic_click_rejected_while_exchanging _ MicOutcome.ok rfl

/-- C4 (code bug): for an audio turn no user Turn is appended before the
exchange resolves (correct), but even a successful response appends only
the assistant Turn: both branches of the skipUserMessage ternary at line
164 are empty arrays, so the transcribed user text never reaches the
transcript, contradicting the intent documented by the parameter name. -/
theorem c4_audio_turn_appends_no_user_turn (s : ChatState) (r : TurnResult) (lat : ℕ) :
    (micStopped s).messages = s.messages
  ∧ (exchangeSettled s FlightKind.audio (ExchangeOutcome.success r) lat).messages
      = s.messages ++ [assistantTurn r] := by
  constructor
  · unfold micStopped
    split <;> rfl
  · exact exchangeSettled_success_messages s FlightKind.audio r lat

/-- C5 counterexample: a result whose lead_score key is missing
(undefined) passes the `!== null` guard and overwrites a previously known
score, so the prior value is not retained. -/
theorem c5_counterexample :
    (handleResponse { initState with leadScore := JsNum.val (1/2) }
        { session_id := JsStr.val "s2", text_response := "ok",
          detected_language := JsStr.undef, audio_base64 := JsStr.undef,
          lead_score := JsNum.undef, lead_status := JsStr.undef,
          pipeline_info := none } true 0).leadScore
      ≠ JsNum.val (1/2) := by decide

/-- C5 (amended): a TurnResult with leadStatus hot and leadScore 0.82
makes the session leadStatus exactly hot and leadScore exactly 0.82,
overwriting prior values with no blending; an explicitly null leadScore
and a missing or empty leadStatus are retained; but a leadScore missing
from the result (undefined) is not retained — the guard excludes only
null, so the prior score is overwritten with undefined. -/
theorem c5_lead_overwrite_semantics (s : ChatState) (r : TurnResult)
    (skip : Bool) (lat : ℕ) :
    (r.lead_score = JsNum.val (82/100) →
        (handleResponse s r skip lat).leadScore = JsNum.val (82/100))
  ∧ (r.lead_status = JsStr.val "hot" →
        (handleResponse s r skip lat).leadStatus = JsStr.val "hot")
  ∧ (r.lead_score = JsNum.null → (handleResponse s r skip lat).leadScore = s.leadScore)
  ∧ (r.lead_status.truthy = false → (handleResponse s r skip lat).leadStatus = s.leadStatus)
  ∧ (r.lead_score = JsNum.undef → (handleResponse s r skip lat).leadScore = JsNum.undef) := by
  refine ⟨?_, ?_, ?_, ?_, ?_⟩
  · intro h
    simp [handleResponse_leadScore, h]
  · intro h
    simp [handleResponse_leadStatus, h, JsStr.truthy]
  · intro h
    simp [handleResponse_leadScore, h]
  · intro h
    simp [handleResponse_leadStatus, h]
  · intro h
    simp [handleResponse_leadScore, h]

/-- C5 witness: the amended theorem applied to the sample hot-lead
result. -/
theorem c5_witness :
    (handleResponse initState resHot true 0).leadScore = JsNum.val (82/100)
  ∧ (handleResponse initState resHot true 0).leadStatus = JsStr.val "hot" :=
  ⟨(c5_lead_overwrite_semantics initState resHot true 0).1 rfl,
   (c5_lead_overwrite_semantics initState resHot true 0).2.1 rfl⟩

/-- A concrete session with a padded pending input, used by the C6
counterexample: bound campaign and input " hi " (leading and trailing
spaces). -/
def c6padded : ChatState :=
  { initState with selectedCampaign := some camp1, textInput := " hi " }

/-- C6, as stated, is false for padded inputs: for the non-whitespace
input " hi " the appended user Turn carries the trimmed content "hi",
not exactly the input. -/
theorem c6_counterexample :
    (sendTextMessage c6padded).messages
      ≠ c6padded.messages ++ [userTurn c6padded.textInput] := by decide

/-- C6 (amended): for every text turn with non-whitespace input and a
campaign bound, a user Turn whose content is the trimmed input — exactly
the input whenever it carries no leading or trailing whitespace — is
appended immediately on entering Exchanging (before the reply arrives),
and after a successful exchange the transcript holds that user Turn
followed by the assistant Turn. -/
theorem c6_text_turn_transcript_order (s : ChatState) (c : Campaign)
    (r : TurnResult) (lat : ℕ)
    (ht : jsTrim s.textInput ≠ "") (hc : s.selectedCampaign = some c) :
    (sendTextMessage s).messages = s.messages ++ [userTurn (jsTrim s.textInput)]
  ∧ (sendTextMessage s).isProcessing = true
  ∧ (exchangeSettled (sendTextMessage s) FlightKind.text (ExchangeOutcome.success r) lat).messages
      = s.messages ++ [userTurn (jsTrim s.textInput), assistantTurn r] := by
  refine ⟨?_, ?_, ?_⟩
  · rw [sendTextMessage_run s c ht hc]
  · rw [sendTextMessage_run s c ht hc]
  · rw [exchangeSettled_success_messages, sendTextMessage_run s c ht hc]
    dsimp only
    rw [List.append_assoc]
    rfl

/-- A concrete session used by the C6 witness: bound campaign and the
sample question as pending input. -/
def c6state : ChatState :=
  { initState with selectedCampaign := some camp1, textInput := "What are your fees?" }

/-- C6 witness: the amended theorem applied to a session with input
"What are your fees?" (its own trim) and the sample result. -/
theorem c6_witness :
    (sendTextMessage c6state).messages = [userTurn "What are your fees?"]
  ∧ (exchangeSettled (sendTextMessage c6state) FlightKind.text
        (ExchangeOutcome.success resHot) 0).messages
      = [userTurn "What are your fees?", assistantTurn resHot] :=
  ⟨(c6_text_turn_transcript_order _ camp1 resHot 0 (by decide) rfl).1,
   (c6_text_turn_transcript_order _ camp1 resHot 0 (by decide) rfl).2.2⟩

/-- C7: an explicit reset and a campaign change both clear sessionId,
turns, leadScore, leadStatus, the pipeline snapshot and any surfaced
error to their initial empty values, synchronously and unconditionally,
and the campaign change binds the newly chosen campaign (forcing a new
session). -/
theorem c7_reset_and_campaign_change_clear (s : ChatState) (oc : Option Campaign) :
    (startNewSession s).sessionId = JsStr.null
  ∧ (startNewSession s).messages = []
  ∧ (startNewSession s).leadScore = JsNum.null
  ∧ (startNewSession s).leadStatus = JsStr.null
  ∧ (startNewSession s).pipelineInfo = none
  ∧ (startNewSession s).error = none
  ∧ (chooseCampaign s oc).sessionId = JsStr.null
  ∧ (chooseCampaign s oc).messages = []
  ∧ (chooseCampaign s oc).leadScore = JsNum.null
  ∧ (chooseCampaign s oc).leadStatus = JsStr.null
  ∧ (chooseCampaign s oc).pipelineInfo = none
  ∧ (chooseCampaign s oc).error = none
  ∧ (chooseCampaign s oc).selectedCampaign = oc :=
  ⟨rfl, rfl, rfl, rfl, rfl, rfl, rfl, rfl, rfl, rfl, rfl, rfl, rfl⟩

/-- C8: with no campaign bound, starting a recording or sending a
non-blank text both stop before any device or network action: the only
change is the campaign-selection error message — sessionId, turns, lead
fields, pipeline snapshot, microphone and in-flight request are all
untouched. -/
theorem c8_no_campaign_aborts (s : ChatState) (o : MicOutcome)
    (h : s.selectedCampaign = none) :
    startRecording s o = { s with error := some campaignError }
  ∧ (jsTrim s.textInput ≠ "" → sendTextMessage s = { s with error := some campaignError }) := by
  constructor
  · unfold startRecording
    rw [h]
    rfl
  · intro ht
    unfold sendTextMessage
    rw [if_neg ht, h]
    rfl

/-- C8 witness: the theorem applied to the initial state with input
"hi" and no campaign. -/
theorem c8_witness :
    startRecording { initState with textInput := "hi" } MicOutcome.ok
      = { initState with textInput := "hi", error := some campaignError }
  ∧ sendTextMessage { initState with textInput := "hi" }
      = { initState with textInput := "hi", error := some campaignError } :=
  ⟨(c8_no_campaign_aborts _ MicOutcome.ok rfl).1,
   (c8_no_campaign_aborts _ MicOutcome.ok rfl).2 (by decide)⟩

/-- C9 (code bug): when the microphone is acquired but the recorder
construction fails, the catch block only sets the error message and never
stops the acquired stream tracks, so the microphone is left held while no
recording is active; on the normal path the onstop callback does release
it. -/
theorem c9_mic_leak_on_recorder_failure :
    (startRecording { initState with selectedCampaign := some camp1 }
        MicOutcome.recorderFail).micHeld = true
  ∧ (startRecording { initState with selectedCampaign := some camp1 }
        MicOutcome.recorderFail).isRecording = false
  ∧ (startRecording { initState with selectedCampaign := some camp1 }
        MicOutcome.recorderFail).error = some micError
  ∧ (micStopped { initState with micHeld := true, pendingStop := true }).micHeld
      = false := by decide

/-- C10: sending with empty or whitespace-only input is a complete no-op
— no network call, no Turn, no error, no state change at all; since this
holds for every state, including those with no campaign bound, the
whitespace check precedes the campaign precondition. -/
theorem c10_whitespace_send_is_noop (s : ChatState) (h : jsTrim s.textInput = "") :
    sendTextMessage s = s := by
  unfold sendTextMessage
  rw [if_pos h]

/-- C10 witness: the theorem applied to a whitespace-only input with no
campaign bound. -/
theorem c10_witness :
    sendTextMessage { initState with textInput := "   " }
      = { initState with textInput := "   " } :=
  c10_whitespace_send_is_noop _ (by decide)

end VoiceChat
